import Mathlib

/-
Verification of the Document Enhancement Pipeline of ResumeATSplus
(src/app.py) against its natural-language specification.

The Python functions are shallowly embedded over `List Char` (one entry
per Unicode code point, matching Python's per-character view of `str`).
Case conversion models Python's `str.lower` / `str.upper` on the ASCII
range, which covers every lexicon constant and every input considered
here.  Fallible or effectful parts (the external Gemini call) are made
explicit: the list of per-model outcomes is a parameter, `none` standing
for a raised exception or a `None` response and `some s` for a response
with `response.text = s`.
-/

set_option autoImplicit false
set_option maxRecDepth 400000

namespace ResumeATS

/-- Extracted document text, one element per code point (Python `str`). -/
abbrev Txt := List Char

/-- Python `str.lower` (ASCII case mapping, as exercised by the code's lexicons). -/
def toLowerT (t : Txt) : Txt := t.map Char.toLower

/-- Python `str.upper` (ASCII case mapping). -/
def toUpperT (t : Txt) : Txt := t.map Char.toUpper

/-- Does `n` occur at the very start of `h`? (helper for substring search). -/
def startsWithL : Txt → Txt → Bool
  | [], _ => true
  | _ :: _, [] => false
  | n :: ns, h :: hs => n == h && startsWithL ns hs

/-- Does `p` hold at some suffix of the text? (scanning helper). -/
def scanP (p : Txt → Bool) : Txt → Bool
  | [] => p []
  | c :: rest => p (c :: rest) || scanP p rest

/-- Python `needle in hay` for strings: substring containment. -/
def containsSub (needle hay : Txt) : Bool := scanP (startsWithL needle) hay

/-- `any(k in tl for k in kws)` over a fixed lexicon. -/
def hasKw (kws : List String) (tl : Txt) : Bool :=
  kws.any (fun k => containsSub k.data tl)

/-- `sum(1 for k in kws if k in tl)`: number of distinct lexicon entries present. -/
def countKw (kws : List String) (tl : Txt) : Nat :=
  (kws.filter (fun k => containsSub k.data tl)).length

/-- The characters removed by Python `str.strip()`. -/
def pyIsSpace (c : Char) : Bool :=
  c == ' ' || c == '\t' || c == '\n' || c == '\r' || c == '\x0b' || c == '\x0c'

/-- Python `str.strip()`. -/
def pyStrip (t : Txt) : Txt :=
  ((t.dropWhile pyIsSpace).reverse.dropWhile pyIsSpace).reverse

/-- Python `str.split(sep)` for a one-character separator. -/
def splitOnChar (sep : Char) : Txt → List Txt
  | [] => [[]]
  | c :: rest =>
    match splitOnChar sep rest with
    | [] => [[]]
    | l :: ls => if c == sep then [] :: l :: ls else (c :: l) :: ls

/-- Python `sep.join(parts)`. -/
def joinWith (sep : Txt) : List Txt → Txt
  | [] => []
  | [l] => l
  | l :: l2 :: ls => l ++ sep ++ joinWith sep (l2 :: ls)

/-- Python `'\n'.join(lines)`. -/
def joinLines (ls : List Txt) : Txt := joinWith ['\n'] ls

/-- Helper for Python `str.split()` (whitespace words): split at every
whitespace character, keeping empty pieces. -/
def wordsSplit : Txt → List Txt
  | [] => [[]]
  | c :: rest =>
    match wordsSplit rest with
    | [] => [[]]
    | l :: ls => if pyIsSpace c then [] :: l :: ls else (c :: l) :: ls

/-- Python `str.split()`: whitespace-separated words, empties dropped. -/
def pyWords (t : Txt) : List Txt := (wordsSplit t).filter (fun w => !w.isEmpty)

/-- Python `list.insert(i, x)`, which clamps an index past the end. -/
def pyInsert {α : Type} (l : List α) (i : Nat) (x : α) : List α :=
  l.take i ++ x :: l.drop i

/-- Index of the first element satisfying `p` (Python `for ... break` search). -/
def pyFindIdx {α : Type} (p : α → Bool) : List α → Option Nat
  | [] => none
  | a :: rest => if p a then some 0 else (pyFindIdx p rest).map (· + 1)

/-- Python `list.index(x)`: index of the first occurrence. -/
def pyIndex (x : Txt) : List Txt → Nat
  | [] => 0
  | l :: ls => if l == x then 0 else pyIndex x ls + 1

/-- Fuel-driven worker for Python `str.replace` (left-to-right,
non-overlapping).  The fuel is set to the text length, which suffices
because every step consumes at least one character. -/
def replaceFuel (old new : Txt) : Nat → Txt → Txt
  | 0, l => l
  | _ + 1, [] => []
  | fuel + 1, c :: rest =>
    if startsWithL old (c :: rest) && !old.isEmpty then
      new ++ replaceFuel old new fuel ((c :: rest).drop old.length)
    else
      c :: replaceFuel old new fuel rest

/-- Python `t.replace(old, new)`. -/
def pyReplace (t old new : Txt) : Txt := replaceFuel old new t.length t

/-- Fuel-driven worker counting non-overlapping, leftmost regex matches:
`m l` returns the length of a match starting at `l`, if any.  Every
alternative used below matches at least one character, so fuel equal to
the text length is never exhausted. -/
def countMatchesFuel (m : Txt → Option Nat) : Nat → Txt → Nat
  | 0, _ => 0
  | _ + 1, [] => 0
  | fuel + 1, c :: rest =>
    match m (c :: rest) with
    | some n => 1 + countMatchesFuel m fuel ((c :: rest).drop n)
    | none => countMatchesFuel m fuel rest

/-- `len(re.findall(pattern, t))` for the patterns modelled by `m`. -/
def countMatches (m : Txt → Option Nat) (t : Txt) : Nat :=
  countMatchesFuel m t.length t

/- ## ScoringEngine: `get_ats_score` (src/app.py lines 106-239) -/

def summary_keywords : List String := ["summary", "objective", "profile", "about"]

def experience_keywords : List String :=
  ["experience", "work history", "employment", "professional experience"]

def job_indicators : List String :=
  ["manager", "developer", "analyst", "engineer", "specialist", "coordinator",
   "director", "intern"]

def skills_keywords : List String :=
  ["skills", "technical skills", "competencies", "technologies", "tools"]

def tech_skills : List String :=
  ["python", "java", "javascript", "sql", "html", "css", "react", "node",
   "aws", "azure", "docker", "git"]

def soft_skills : List String :=
  ["leadership", "communication", "teamwork", "problem solving", "analytical",
   "creative"]

def cert_keywords : List String := ["certified", "certification", "license", "credential"]

def education_keywords : List String :=
  ["education", "degree", "university", "college", "bachelor", "master", "phd",
   "diploma"]

def degree_keywords : List String :=
  ["bachelor", "master", "phd", "doctorate", "associate", "diploma", "certificate"]

def honors_keywords : List String :=
  ["gpa", "honors", "magna cum laude", "summa cum laude", "dean"]

def action_verbs : List String :=
  ["achieved", "managed", "led", "developed", "created", "implemented",
   "improved", "increased", "decreased", "optimized", "streamlined",
   "coordinated", "supervised", "analyzed", "designed", "built", "established",
   "launched", "delivered"]

def sections_keywords : List String := ["contact", "summary", "experience", "skills", "education"]

def generic_words : List String :=
  ["responsible for", "worked on", "helped with", "assisted in"]

def phone_markers : List String := ["phone", "tel", "mobile", "+", "(", ")"]

def address_markers : List String := ["address", "city", "state", "zip"]

def month_abbrevs : List String :=
  ["jan", "feb", "mar", "apr", "may", "jun", "jul", "aug", "sep", "oct", "nov", "dec"]

/-- Contact-information category, already capped at 15 (`min(contact_score, 15)`). -/
def contact_component (t : Txt) : Nat :=
  let tl := toLowerT t
  min ((if containsSub "@".data tl || containsSub "email".data tl then 5 else 0) +
       (if hasKw phone_markers tl then 3 else 0) +
       (if containsSub "linkedin".data tl then 4 else 0) +
       (if hasKw address_markers tl then 3 else 0)) 15

/-- Qualifying lines in `range(idx+1, min(idx+5, len(lines)))`: non-blank after
strip and longer than 20 characters. -/
def summaryQualAfter (lines : List Txt) (idx : Nat) : Nat :=
  ((lines.drop (idx + 1)).take 4).countP (fun li => (pyStrip li).length > 20)

/-- The code's `summary_content` accumulator; each keyword line is located with
`lines.index(line)`, i.e. by its first occurrence. -/
def summaryContent (t : Txt) : Nat :=
  let lines := splitOnChar '\n' t
  ((lines.filter (fun l => hasKw summary_keywords (toLowerT l))).map
      (fun l => summaryQualAfter lines (pyIndex l lines))).foldl (fun a b => a + b) 0

/-- Summary/objective category: `min(summary_content * 3, 10)` behind the keyword gate. -/
def summary_component (t : Txt) : Nat :=
  if hasKw summary_keywords (toLowerT t) then min (summaryContent t * 3) 10 else 0

/-- `re.search(r'\d{4}', ...)` at this position: four consecutive digits. -/
def fourDigitsHere : Txt → Bool := fun l =>
  match l with
  | a :: b :: c :: d :: _ => a.isDigit && b.isDigit && c.isDigit && d.isDigit
  | _ => false

/-- `re.search(r'\d{1,2}/\d{4}', ...)` at this position (a one-digit match
suffices for search, since any two-digit match contains one). -/
def slashDateHere : Txt → Bool := fun l =>
  match l with
  | a :: b :: c :: d :: e :: f :: _ =>
      a.isDigit && b == '/' && c.isDigit && d.isDigit && e.isDigit && f.isDigit
  | _ => false

/-- `sum(1 for pattern in date_patterns if re.search(pattern, text_lower))`:
the number of date PATTERNS that match somewhere, not the number of
date tokens.  At most 3. -/
def dateMatches (t : Txt) : Nat :=
  let tl := toLowerT t
  (if scanP fourDigitsHere tl then 1 else 0) +
  (if scanP slashDateHere tl then 1 else 0) +
  (if hasKw month_abbrevs tl then 1 else 0)

/-- Length of the leading run of digits (greedy `\d+`). -/
def digitRun : Txt → Nat
  | [] => 0
  | c :: rest => if c.isDigit then digitRun rest + 1 else 0

/-- One match attempt of `r'\d+%|\$\d+|\d+\+|increased|decreased|improved|reduced'`
at the current position, alternatives tried in the regex's order. -/
def quantMatchAt (l : Txt) : Option Nat :=
  let k := digitRun l
  if k > 0 && ((l.drop k).headD 'x' == '%') then some (k + 1)
  else if (l.headD 'x' == '$') && ((l.drop 1).headD 'x').isDigit then
    some (1 + digitRun (l.drop 1))
  else if k > 0 && ((l.drop k).headD 'x' == '+') then some (k + 1)
  else if startsWithL "increased".data l then some 9
  else if startsWithL "decreased".data l then some 9
  else if startsWithL "improved".data l then some 8
  else if startsWithL "reduced".data l then some 7
  else none

/-- `len(re.findall(r'\d+%|\$\d+|\d+\+|increased|decreased|improved|reduced', text_lower))`. -/
def quantCount (t : Txt) : Nat := countMatches quantMatchAt (toLowerT t)

/-- The experience-section keyword gate. -/
def expGate (t : Txt) : Bool := hasKw experience_keywords (toLowerT t)

/-- The raw `experience_score` accumulator (before the outer `min(..., 25)`). -/
def experience_score (t : Txt) : Nat :=
  if expGate t then
    5 + min (dateMatches t) 8 + min (countKw job_indicators (toLowerT t) * 2) 6 +
      min (quantCount t) 6
  else 0

/-- Experience category, capped at 25. -/
def experience_component (t : Txt) : Nat := min (experience_score t) 25

/-- The skills-section keyword gate. -/
def skillsGate (t : Txt) : Bool := hasKw skills_keywords (toLowerT t)

/-- The raw `skills_score` accumulator. -/
def skills_score (t : Txt) : Nat :=
  if skillsGate t then
    5 + min (countKw tech_skills (toLowerT t)) 8 +
      min (countKw soft_skills (toLowerT t)) 4 +
      (if hasKw cert_keywords (toLowerT t) then 3 else 0)
  else 0

/-- Skills category, capped at 20. -/
def skills_component (t : Txt) : Nat := min (skills_score t) 20

/-- The education keyword gate. -/
def eduGate (t : Txt) : Bool := hasKw education_keywords (toLowerT t)

/-- The raw `education_score` accumulator. -/
def education_score (t : Txt) : Nat :=
  if eduGate t then
    5 + min (countKw degree_keywords (toLowerT t) * 3) 6 +
      (if hasKw honors_keywords (toLowerT t) then 4 else 0)
  else 0

/-- Education category, capped at 15. -/
def education_component (t : Txt) : Nat := min (education_score t) 15

/-- Action-verb category: `min(verb_count, 10)`. -/
def verb_component (t : Txt) : Nat := min (countKw action_verbs (toLowerT t)) 10

/-- Structure category: `min(section_count, 5)`. -/
def structure_component (t : Txt) : Nat := min (countKw sections_keywords (toLowerT t)) 5

/-- Sum of the seven capped category contributions. -/
def catSum (t : Txt) : Nat :=
  contact_component t + summary_component t + experience_component t +
    skills_component t + education_component t + verb_component t +
    structure_component t

/-- Length penalties: `-10` below 200 characters, `-5` above 5000. -/
def lenPenalty (t : Txt) : Int :=
  (if t.length < 200 then 10 else 0) + (if t.length > 5000 then 5 else 0)

/-- `generic_count`: the number of DISTINCT generic filler phrases present. -/
def genericCount (t : Txt) : Nat := countKw generic_words (toLowerT t)

/-- The `-5` filler penalty, applied when `generic_count > 3`. -/
def genericPenalty (t : Txt) : Int := if genericCount t > 3 then 5 else 0

/-- `get_ats_score` (src/app.py lines 106-239): category sums, penalties,
then the final clamp `max(0, min(score, 100))`. -/
def get_ats_score (t : Txt) : Int :=
  max 0 (min ((catSum t : Int) - lenPenalty t - genericPenalty t) 100)

/- ## EnhancementStrategyChain (src/app.py lines 241-476) -/

/-- The smart fallback's `safe_replacements` dict, in insertion order. -/
def smart_replacements : List (String × String) :=
  [("worked on", "developed"), ("helped with", "assisted in"),
   ("was responsible for", "managed"), ("took care of", "maintained")]

/-- Apply a table of `str.replace` substitutions in order. -/
def applyReplacements (prs : List (String × String)) (t : Txt) : Txt :=
  prs.foldl (fun acc pr => pyReplace acc pr.1.data pr.2.data) t

/-- Smart-fallback step 1: if `'CONTACT'` is absent from the upper-cased text,
insert a `CONTACT INFORMATION` header (plus a blank line) before the first
line containing `'@'` or looking like a name (at most 3 words, no digit). -/
def smartStep1 (t : Txt) : Txt :=
  if containsSub "CONTACT".data (toUpperT t) then t
  else
    let lines := splitOnChar '\n' t
    match pyFindIdx (fun line =>
        containsSub "@".data line ||
          ((pyWords line).length ≤ 3 && !(line.any Char.isDigit))) lines with
    | some i => joinLines (pyInsert (pyInsert lines i "CONTACT INFORMATION".data) (i + 1) [])
    | none => joinLines lines

/-- Smart-fallback step 3: if no SUMMARY/OBJECTIVE marker exists and the text
is under 1000 characters, insert a generic `PROFESSIONAL SUMMARY` block two
lines after the first contact-ish line (no insertion when none is found,
since then `insert_pos` stays 0). -/
def smartStep3 (t : Txt) : Txt :=
  if !(containsSub "SUMMARY".data (toUpperT t)) &&
      !(containsSub "OBJECTIVE".data (toUpperT t)) && t.length < 1000 then
    let lines := splitOnChar '\n' t
    match pyFindIdx (fun line => hasKw ["@", "phone", "linkedin"] (toLowerT line)) lines with
    | some i =>
        joinLines (pyInsert (pyInsert (pyInsert lines (i + 2) "PROFESSIONAL SUMMARY".data)
          (i + 3) "Experienced professional seeking to leverage skills and expertise in a challenging role.".data)
          (i + 4) [])
    | none => t
  else t

/-- The edited text built by `enhance_resume_smart_fallback` before its score
validation: header insertion, phrase substitutions, optional summary block. -/
def smartEdits (t : Txt) : Txt :=
  smartStep3 (applyReplacements smart_replacements (smartStep1 t))

/-- The structural fallback's `action_verb_replacements` dict, in insertion order. -/
def fb_replacements : List (String × String) :=
  [("worked on", "developed"), ("helped with", "assisted in"),
   ("did", "executed"), ("made", "created"),
   ("was responsible for", "managed"), ("was in charge of", "led"),
   ("took care of", "maintained"), ("dealt with", "handled")]

/-- Verbs that cause the structural fallback to prefix a bullet. -/
def bullet_verbs : List String := ["developed", "created", "managed", "led", "implemented"]

/-- First pass of `enhance_resume_fallback`: extract `(name, email, phone)`
from the stripped lines, empty standing for Python's falsy `""`. -/
def extractContact : List Txt → Txt → Txt → Txt → Txt × Txt × Txt
  | [], name, email, phone => (name, email, phone)
  | line :: rest, name, email, phone =>
    let l := pyStrip line
    if l.isEmpty then extractContact rest name email phone
    else if containsSub "@".data l && email.isEmpty then extractContact rest name l phone
    else if hasKw ["phone", "+", "(", ")"] (toLowerT l) && phone.isEmpty then
      extractContact rest name email l
    else if name.isEmpty && (pyWords l).length ≤ 3 && !(l.any Char.isDigit) then
      extractContact rest l email phone
    else extractContact rest name email phone

/-- Second pass of `enhance_resume_fallback`: relabel section-keyword lines as
canonical headers, apply phrase substitutions, and prefix bullets inside the
experience/projects sections; `cur` is the `current_section` state (`[]` for
Python's initial `None`). -/
def processLines (name email phone : Txt) : List Txt → Txt → List Txt
  | [], _ => []
  | line :: rest, cur =>
    let l := pyStrip line
    if l.isEmpty || l == name || l == email || l == phone then
      processLines name email phone rest cur
    else
      let u := toUpperT l
      if hasKw ["SUMMARY", "OBJECTIVE", "PROFILE"] u then
        "PROFESSIONAL SUMMARY".data :: [] ::
          processLines name email phone rest "PROFESSIONAL SUMMARY".data
      else if hasKw ["EXPERIENCE", "WORK", "EMPLOYMENT"] u then
        "PROFESSIONAL EXPERIENCE".data :: [] ::
          processLines name email phone rest "PROFESSIONAL EXPERIENCE".data
      else if hasKw ["SKILLS", "TECHNICAL", "COMPETENCIES"] u then
        "TECHNICAL SKILLS".data :: [] ::
          processLines name email phone rest "TECHNICAL SKILLS".data
      else if hasKw ["EDUCATION", "DEGREE", "UNIVERSITY", "COLLEGE"] u then
        "EDUCATION".data :: [] :: processLines name email phone rest "EDUCATION".data
      else if hasKw ["PROJECTS", "PROJECT"] u then
        "PROJECTS".data :: [] :: processLines name email phone rest "PROJECTS".data
      else
        let el := applyReplacements fb_replacements l
        let el2 :=
          if (cur == "PROFESSIONAL EXPERIENCE".data || cur == "PROJECTS".data) &&
              !(startsWithL "•".data el) && hasKw bullet_verbs (toLowerT el) then
            "• ".data ++ el
          else el
        el2 :: processLines name email phone rest cur

/-- `while summary_index < len(lines) and lines[summary_index].strip()`:
advance past non-blank lines. -/
def skipNonblankAux : List Txt → Nat → Nat
  | [], acc => acc
  | l :: rest, acc => if (pyStrip l).isEmpty then acc else skipNonblankAux rest (acc + 1)

/-- The generic summary sentence appended by the structural fallback. -/
def fb_summary_sentence : Txt :=
  "Experienced professional with a strong background in technology and problem-solving. Seeking opportunities to contribute technical expertise and drive impactful results.".data

/-- `enhance_resume_fallback` (src/app.py lines 370-476): full deterministic
restructuring. -/
def enhance_resume_fallback (t : Txt) : Txt :=
  let lines := splitOnChar '\n' t
  let nep := extractContact lines [] [] []
  let name := nep.1
  let email := nep.2.1
  let phone := nep.2.2
  let pre : List Txt :=
    if !name.isEmpty then
      ["CONTACT INFORMATION".data, [], name] ++
        (if !email.isEmpty then [email] else []) ++
        (if !phone.isEmpty then [phone] else []) ++ [[]]
    else []
  let allLines := pre ++ processLines name email phone lines []
  let allLines2 :=
    if !(containsSub "PROFESSIONAL SUMMARY".data (joinLines allLines)) then
      let si0 : Nat := if allLines.headD [] == "CONTACT INFORMATION".data then 1 else 0
      let si := skipNonblankAux (allLines.drop si0) si0
      pyInsert (pyInsert (pyInsert (pyInsert allLines (si + 1) "PROFESSIONAL SUMMARY".data)
        (si + 2) []) (si + 3) fb_summary_sentence) (si + 4) []
    else allLines
  joinLines allLines2

/-- `enhance_resume_smart_fallback` (src/app.py lines 310-368): accept the
smart edits only on strict score improvement, else try the structural
fallback, else return `resume_text.strip()`. -/
def enhance_resume_smart_fallback (t : Txt) : Txt :=
  if get_ats_score (smartEdits t) ≤ get_ats_score t then
    if get_ats_score (enhance_resume_fallback t) ≤ get_ats_score t then pyStrip t
    else enhance_resume_fallback t
  else smartEdits t

/-- The provider loop of `enhance_resume_with_ai`: each list entry models one
model-name attempt (`none` = exception or falsy response text); the first
non-empty response whose score is at least the original's is returned. -/
def tryModels (originalScore : Int) : List (Option Txt) → Option Txt
  | [] => none
  | none :: rest => tryModels originalScore rest
  | some u :: rest =>
    if u ≠ [] ∧ originalScore ≤ get_ats_score u then some u
    else tryModels originalScore rest

/-- `enhance_resume_with_ai` (src/app.py lines 241-308): the provider chain
with `enhance_resume_smart_fallback` as the terminal strategy. -/
def enhance_resume_with_ai (responses : List (Option Txt)) (t : Txt) : Txt :=
  match tryModels (get_ats_score t) responses with
  | some r => r
  | none => enhance_resume_smart_fallback t

/- ## LineClassifier and skills rendering (src/app.py lines 543-604) -/

/-- Structural role assigned to a stripped, non-blank line. -/
inductive Role where
  | sectionHeader
  | subHeader
  | bullet
  | contactLine
  | skillsList
  | prose
  deriving DecidableEq

def header_names : List String :=
  ["CONTACT INFORMATION", "PROFESSIONAL SUMMARY", "PROFESSIONAL EXPERIENCE",
   "TECHNICAL SKILLS", "EDUCATION", "PROJECTS", "CERTIFICATIONS"]

def job_title_words : List String :=
  ["ENGINEER", "DEVELOPER", "MANAGER", "ANALYST", "SPECIALIST", "INTERN",
   "CONSULTANT", "COORDINATOR", "DIRECTOR", "ASSOCIATE"]

def degree_words : List String :=
  ["BACHELOR", "MASTER", "B.TECH", "M.TECH", "MBA", "PHD", "B.S.", "M.S."]

def year_words : List String := ["2020", "2021", "2022", "2023", "2024", "2025"]

def contact_words : List String := ["@", "phone", "linkedin", "github"]

/-- The ordered line-classification decision list inside
`create_pdf_from_text` (first match wins). -/
def classify_line (line : Txt) : Role :=
  let u := toUpperT line
  if hasKw header_names u then .sectionHeader
  else if (hasKw job_title_words u &&
        (containsSub ['–'] line || containsSub ['|'] line ||
          containsSub "at".data (toLowerT line) || hasKw year_words line)) ||
      (hasKw degree_words u && hasKw year_words line) then .subHeader
  else if startsWithL "•".data line || startsWithL "-".data line ||
      startsWithL "*".data line then .bullet
  else if hasKw contact_words (toLowerT line) ||
      ((pyWords line).length ≤ 3 && !(line.any Char.isDigit) &&
        !(startsWithL "•".data line) && line.length > 5) then .contactLine
  else if containsSub ",".data line && (splitOnChar ',' line).length > 2 then .skillsList
  else .prose

/-- Rendering of a `SkillsList` line: comma-delimited items, stripped, joined
with a bullet separator (`' • '.join(skills)`). -/
def render_skills_line (line : Txt) : Txt :=
  joinWith " • ".data ((splitOnChar ',' line).map pyStrip)

/- ## Pipeline controller: the scoring/enhancement slice of `upload_file`
(src/app.py lines 646-659) -/

/-- The result record built by the upload route. -/
structure UploadResult where
  originalScore : Int
  enhancedText : Txt
  enhancedScore : Int

/-- The core slice of `upload_file`: score, enhance, re-score, and fall back
to the original text and score when the enhanced score is lower. -/
def upload_file_process (responses : List (Option Txt)) (extracted : Txt) : UploadResult :=
  if get_ats_score (enhance_resume_with_ai responses extracted) < get_ats_score extracted then
    ⟨get_ats_score extracted, extracted, get_ats_score extracted⟩
  else
    ⟨get_ats_score extracted, enhance_resume_with_ai responses extracted,
      get_ats_score (enhance_resume_with_ai responses extracted)⟩

/- ## Spec-side definitions used to compare claims against the code -/

/-- Following the SPEC's words (not the code): one 4-digit year token at the
current position. -/
def spec_year_match (l : Txt) : Option Nat :=
  if fourDigitsHere l then some 4 else none

/-- Following the SPEC's words (not the code): the number of 4-digit year
tokens in the text (leftmost, non-overlapping). -/
def spec_year_token_count (t : Txt) : Nat :=
  countMatches spec_year_match (toLowerT t)

/-- Following the SPEC's words (not the code): total occurrences of the four
generic filler phrases, counting repeats of the same phrase. -/
def spec_filler_occurrences (t : Txt) : Nat :=
  (generic_words.map (fun p =>
      countMatches (fun l => if startsWithL p.data l then some p.data.length else none)
        (toLowerT t))).foldl (fun a b => a + b) 0

/- ## Concrete inputs used by counterexamples and witnesses -/

/-- A 200-character text whose score relies on its trailing whitespace
padding: stripping it re-triggers the short-text penalty. -/
def exText1 : Txt :=
  "CONTACT\nSUMMARY\njohn@example.com linkedin\n".data ++ List.replicate 158 ' '

/-- A text with eight distinct 4-digit years in an experience section. -/
def exText5 : Txt := "experience 1991 1992 1993 1994 1995 1996 1997 1998".data

/-- A 200-character text containing the phrase "responsible for" four times
and no other filler phrase. -/
def exText6 : Txt :=
  "email linkedin responsible for responsible for responsible for responsible for ".data ++
    List.replicate 121 'x'

/-- A 201-character text with trailing whitespace that no strategy strictly
improves, so the chain falls through to `resume_text.strip()`. -/
def exText7 : Txt :=
  "CONTACT\nSUMMARY\njohn@example.com linkedin\n".data ++ List.replicate 159 ' '

/-- A short text containing each of the four generic filler phrases once. -/
def exText6w : Txt := "responsible for worked on helped with assisted in".data

/- ## Helper lemmas about the provider loop -/

/-- A text accepted by the provider loop scores at least the original score. -/
theorem tryModels_le {s : Int} {r : Txt} :
    ∀ rs : List (Option Txt), tryModels s rs = some r → s ≤ get_ats_score r := by
  intro rs
  induction rs with
  | nil => intro h; simp [tryModels] at h
  | cons a rest ih =>
    intro h
    cases a with
    | none => exact ih (by simpa [tryModels] using h)
    | some u =>
      by_cases hc : u ≠ [] ∧ s ≤ get_ats_score u
      · have hu : some u = some r := by simpa [tryModels, hc] using h
        cases hu
        exact hc.2
      · exact ih (by simpa [tryModels, hc] using h)

/-- If every provider attempt fails, the provider loop yields nothing. -/
theorem tryModels_none_of_allNone (s : Int) :
    ∀ rs : List (Option Txt), (∀ r ∈ rs, r = none) → tryModels s rs = none := by
  intro rs
  induction rs with
  | nil => intro _; rfl
  | cons a rest ih =>
    intro h
    have ha : a = none := h a (List.mem_cons_self a rest)
    subst ha
    show tryModels s rest = none
    exact ih (fun r hr => h r (List.mem_cons_of_mem none hr))

/- ## Claim theorems -/

/-- C1, counterexample: with every provider attempt failing, enhancing
`exText1` strictly lowers its score (the chain returns the stripped original,
which falls back under the 200-character penalty threshold), so
`score(enhance(T)) >= score(T)` is false as stated. -/
theorem C1_counterexample :
    get_ats_score (enhance_resume_with_ai [] exText1) < get_ats_score exText1 := by
  decide

/-- C1 (amended): for every provider outcome and every text equal to its own
`strip()` (no leading or trailing whitespace), the score of the enhanced text
is at least the score of the original. -/
theorem C1_amended_nonregression (responses : List (Option Txt)) (t : Txt)
    (h : pyStrip t = t) :
    get_ats_score t ≤ get_ats_score (enhance_resume_with_ai responses t) := by
  unfold enhance_resume_with_ai
  cases htm : tryModels (get_ats_score t) responses with
  | some r => exact tryModels_le responses htm
  | none =>
    show get_ats_score t ≤ get_ats_score (enhance_resume_smart_fallback t)
    unfold enhance_resume_smart_fallback
    split_ifs with h1 h2
    · rw [h]
    · omega
    · omega

/-- C1 witness: the amended theorem applied to the whitespace-free text "hi". -/
theorem C1_amended_nonregression_witness :
    pyStrip "hi".data = "hi".data ∧
      get_ats_score "hi".data ≤ get_ats_score (enhance_resume_with_ai [] "hi".data) :=
  ⟨by decide, C1_amended_nonregression [] "hi".data (by decide)⟩

/-- C2 (confirmed): the upload pipeline always returns an enhanced score at
least the original score, and whenever the enhancement output scores lower
than the original it substitutes the original text and the original score. -/
theorem C2_upload_nonregression (responses : List (Option Txt)) (t : Txt) :
    (upload_file_process responses t).originalScore ≤
        (upload_file_process responses t).enhancedScore ∧
      (get_ats_score (enhance_resume_with_ai responses t) < get_ats_score t →
        (upload_file_process responses t).enhancedText = t ∧
          (upload_file_process responses t).enhancedScore = get_ats_score t) := by
  unfold upload_file_process
  by_cases h : get_ats_score (enhance_resume_with_ai responses t) < get_ats_score t
  · rw [if_pos h]
    exact ⟨le_refl _, fun _ => ⟨rfl, rfl⟩⟩
  · rw [if_neg h]
    constructor
    · show get_ats_score t ≤ get_ats_score (enhance_resume_with_ai responses t)
      omega
    · exact fun hc => absurd hc h

/-- C2 witness: at `exText1` the enhancement output really does score lower,
and the pipeline substitutes the original text and score. -/
theorem C2_upload_nonregression_witness :
    get_ats_score (enhance_resume_with_ai [] exText1) < get_ats_score exText1 ∧
      (upload_file_process [] exText1).enhancedText = exText1 ∧
      (upload_file_process [] exText1).enhancedScore = get_ats_score exText1 := by
  have h : get_ats_score (enhance_resume_with_ai [] exText1) < get_ats_score exText1 := by
    decide
  exact ⟨h, ((C2_upload_nonregression [] exText1).2 h).1,
    ((C2_upload_nonregression [] exText1).2 h).2⟩

/-- C3 (confirmed): for every text, including the empty one, the ATS score is
an integer between 0 and 100. -/
theorem C3_score_bounded (t : Txt) :
    0 ≤ get_ats_score t ∧ get_ats_score t ≤ 100 := by
  unfold get_ats_score
  exact ⟨le_max_left 0 _, max_le (by norm_num) (min_le_right _ _)⟩

/-- C4 (confirmed): on the input "john@example.com" the contact category
contributes exactly 5, every other category contributes 0, the short-text
penalty is 10, and the clamped total is 0. -/
theorem C4_email_only_breakdown :
    contact_component "john@example.com".data = 5 ∧
      summary_component "john@example.com".data = 0 ∧
      experience_component "john@example.com".data = 0 ∧
      skills_component "john@example.com".data = 0 ∧
      education_component "john@example.com".data = 0 ∧
      verb_component "john@example.com".data = 0 ∧
      structure_component "john@example.com".data = 0 ∧
      lenPenalty "john@example.com".data = 10 ∧
      genericPenalty "john@example.com".data = 0 ∧
      get_ats_score "john@example.com".data = 0 := by
  decide

/-- C5, counterexample: `exText5` has an experience keyword and eight distinct
4-digit year tokens, yet the date term contributes `min(dateMatches, 8) = 1`,
not 8, because the code counts the number of PATTERNS that match (at most 3),
not the number of date tokens; the whole experience accumulator is 6, not the
claimed 5 + 8. -/
theorem C5_counterexample :
    expGate exText5 = true ∧ spec_year_token_count exText5 = 8 ∧
      dateMatches exText5 = 1 ∧ min (dateMatches exText5) 8 ≠ 8 ∧
      experience_score exText5 = 6 := by
  decide

/-- C5 (amended): when an experience keyword is present, the date contribution
equals the number of the three date patterns (4-digit year, mm/yyyy,
month-name abbreviation) that occur somewhere in the text; it is at most 3,
so the cap at 8 never binds. -/
theorem C5_amended_date_contribution (t : Txt) :
    dateMatches t ≤ 3 ∧
      experience_score t =
        if expGate t then
          5 + dateMatches t + min (countKw job_indicators (toLowerT t) * 2) 6 +
            min (quantCount t) 6
        else 0 := by
  have h3 : dateMatches t ≤ 3 := by
    unfold dateMatches
    dsimp only
    split_ifs <;> omega
  refine ⟨h3, ?_⟩
  unfold experience_score
  rw [min_eq_left (le_trans h3 (by norm_num))]

/-- C6, counterexample: `exText6` contains "responsible for" four times (four
filler occurrences counted with repeats), yet its score is 9, not the 4 the
claimed occurrence-counted penalty would give: the code counts DISTINCT
phrases, and only one is present. -/
theorem C6_counterexample :
    spec_filler_occurrences exText6 = 4 ∧ 3 < spec_filler_occurrences exText6 ∧
      get_ats_score exText6 = 9 ∧
      max 0 (min ((catSum exText6 : Int) - lenPenalty exText6 - 5) 100) = 4 := by
  decide

/-- C6 (amended): a text containing more than 3 DISTINCT generic filler
phrases — that is, all four of them as substrings — receives the 5-point
penalty, subtracted after the category sums and before the final clamp. -/
theorem C6_amended_filler_penalty (t : Txt)
    (h1 : containsSub "responsible for".data (toLowerT t) = true)
    (h2 : containsSub "worked on".data (toLowerT t) = true)
    (h3 : containsSub "helped with".data (toLowerT t) = true)
    (h4 : containsSub "assisted in".data (toLowerT t) = true) :
    get_ats_score t = max 0 (min ((catSum t : Int) - lenPenalty t - 5) 100) := by
  have hg : genericPenalty t = 5 := by
    unfold genericPenalty genericCount countKw generic_words
    simp [List.filter, h1, h2, h3, h4]
  unfold get_ats_score
  rw [hg]

/-- C6 witness: the amended theorem applied to a text containing all four
filler phrases. -/
theorem C6_amended_filler_penalty_witness :
    containsSub "responsible for".data (toLowerT exText6w) = true ∧
      containsSub "worked on".data (toLowerT exText6w) = true ∧
      containsSub "helped with".data (toLowerT exText6w) = true ∧
      containsSub "assisted in".data (toLowerT exText6w) = true ∧
      get_ats_score exText6w =
        max 0 (min ((catSum exText6w : Int) - lenPenalty exText6w - 5) 100) :=
  ⟨by decide, by decide, by decide, by decide,
    C6_amended_filler_penalty exText6w (by decide) (by decide) (by decide) (by decide)⟩

/-- C7, counterexample: at `exText7` no provider candidate exists and neither
fallback strictly improves the score, yet the chain does NOT return the text
byte-for-byte: it returns `resume_text.strip()`, which differs from the
original by its trailing whitespace. -/
theorem C7_counterexample :
    tryModels (get_ats_score exText7) [] = none ∧
      get_ats_score (smartEdits exText7) ≤ get_ats_score exText7 ∧
      get_ats_score (enhance_resume_fallback exText7) ≤ get_ats_score exText7 ∧
      enhance_resume_with_ai [] exText7 ≠ exText7 := by
  exact ⟨rfl, by decide, by decide, by decide⟩

/-- C7 (amended): whenever the provider loop produces no accepted candidate
and neither the smart edits nor the structural fallback strictly improve the
score, the chain returns the original text stripped of leading and trailing
whitespace. -/
theorem C7_amended_returns_stripped (responses : List (Option Txt)) (t : Txt)
    (hai : tryModels (get_ats_score t) responses = none)
    (hs : get_ats_score (smartEdits t) ≤ get_ats_score t)
    (hf : get_ats_score (enhance_resume_fallback t) ≤ get_ats_score t) :
    enhance_resume_with_ai responses t = pyStrip t := by
  unfold enhance_resume_with_ai
  rw [hai]
  show enhance_resume_smart_fallback t = pyStrip t
  unfold enhance_resume_smart_fallback
  rw [if_pos hs, if_pos hf]

/-- C7 witness: the amended theorem applied at `exText7`. -/
theorem C7_amended_returns_stripped_witness :
    get_ats_score (smartEdits exText7) ≤ get_ats_score exText7 ∧
      get_ats_score (enhance_resume_fallback exText7) ≤ get_ats_score exText7 ∧
      enhance_resume_with_ai [] exText7 = pyStrip exText7 :=
  ⟨by decide, by decide,
    C7_amended_returns_stripped [] exText7 rfl (by decide) (by decide)⟩

/-- C8 (confirmed): the line "Python, SQL, AWS, Docker" is classified as a
skills list and rendered as its comma-delimited items joined with a bullet
separator. -/
theorem C8_skills_line_classified_and_rendered :
    classify_line "Python, SQL, AWS, Docker".data = Role.skillsList ∧
      render_skills_line "Python, SQL, AWS, Docker".data =
        "Python • SQL • AWS • Docker".data := by
  decide

/-- C9 (confirmed): with the rewrite provider disabled (every attempt
failing), the enhancement output is a function of the input text alone — any
two disabled provider configurations yield identical output. -/
theorem C9_fallback_deterministic (t : Txt) (rs1 rs2 : List (Option Txt))
    (h1 : ∀ r ∈ rs1, r = none) (h2 : ∀ r ∈ rs2, r = none) :
    enhance_resume_with_ai rs1 t = enhance_resume_with_ai rs2 t := by
  unfold enhance_resume_with_ai
  rw [tryModels_none_of_allNone (get_ats_score t) rs1 h1,
    tryModels_none_of_allNone (get_ats_score t) rs2 h2]

/-- C9 witness: two disabled provider configurations give the same output on
a concrete text. -/
theorem C9_fallback_deterministic_witness :
    enhance_resume_with_ai [] "hi".data = enhance_resume_with_ai [none] "hi".data :=
  C9_fallback_deterministic "hi".data [] [none]
    (fun r hr => absurd hr (List.not_mem_nil r))
    (fun r hr => by rwa [List.mem_singleton] at hr)

/-- C10 (confirmed): without its section keyword, each of the skills,
experience and education categories contributes exactly 0, regardless of any
other tokens in the text. -/
theorem C10_category_gating (t : Txt) :
    (skillsGate t = false → skills_component t = 0) ∧
      (expGate t = false → experience_component t = 0) ∧
      (eduGate t = false → education_component t = 0) := by
  refine ⟨fun h => ?_, fun h => ?_, fun h => ?_⟩
  · simp [skills_component, skills_score, h]
  · simp [experience_component, experience_score, h]
  · simp [education_component, education_score, h]

/-- C10 witness: the gating theorem applied to a text with none of the
section keywords. -/
theorem C10_category_gating_witness :
    skillsGate "xyz".data = false ∧ expGate "xyz".data = false ∧
      eduGate "xyz".data = false ∧ skills_component "xyz".data = 0 ∧
      experience_component "xyz".data = 0 ∧ education_component "xyz".data = 0 :=
  ⟨by decide, by decide, by decide,
    (C10_category_gating "xyz".data).1 (by decide),
    (C10_category_gating "xyz".data).2.1 (by decide),
    (C10_category_gating "xyz".data).2.2 (by decide)⟩

end ResumeATS
